import Mathlib

/-!
Verification of the coordinate-translation and variant-scan logic of the
RHD-RHCE Giraffe-DeepVariant notebook.

The notebook's procedural core is:

```python
coord_wg  = [25408683, 25408869]
offset    = 25053647
coord_sub = [pos - offset for pos in coord_wg]
region_subset = 'chr1:{}-{}'.format(coord_sub[0], coord_sub[1])

var_pos = ''
for record in vcf_reader('chr1:{}-{}'.format(coord_sub[0], coord_sub[1])):
    if record.genotypes[0][0] == 1 and record.genotypes[0][1] == 1:
        var_pos = record.start
        break

region = 'GRCh38.chr1:{}-{}'.format(var_pos, var_pos)
```

We embed this shallowly: Python ints become `Int`, the lazy cyvcf2 record
stream becomes a finite `List VariantRecord`, the fallible `genotypes[0]`
access becomes an `Option`-valued lookup (a record with no sample raises
`IndexError` in the source, modelled as the error value `none` of the outer
`Option`), and the mutable `var_pos` variable becomes the explicit
string-or-int sum the Python variable actually holds.
-/

namespace RHCE

/-- One per-sample genotype call as exposed by the VCF reader:
`record.genotypes[0]` in the source is a triple of two allele indices and a
phasing flag; only the two allele indices are read by the scan. -/
structure Genotype where
  a0 : Int
  a1 : Int
  phased : Bool
deriving DecidableEq, Repr

/-- One row of the variant stream, with the attributes the notebook reads:
the contig, the (0-based) start position, and the per-sample genotypes. -/
structure VariantRecord where
  contig : String
  start : Int
  genotypes : List Genotype
deriving DecidableEq, Repr

/-- A region: contig name with start and end coordinates. -/
structure Region where
  contig : String
  start : Int
  stop : Int
deriving DecidableEq, Repr

/-- The contig name of the pre-extracted slice, as hard-coded in
`region_subset = 'chr1:{}-{}'.format(...)`. -/
def slice_contig : String := "chr1"

/-- Single-coordinate translation into slice-relative space: the body
`pos - offset` of the comprehension `[pos - offset for pos in coord_wg]`. -/
def translate (p o : Int) : Int := p - o

/-- `coord_sub = [pos - offset for pos in coord_wg]`: translate every
coordinate of the list by the fixed offset. -/
def coord_sub (coord_wg : List Int) (offset : Int) : List Int :=
  coord_wg.map (fun pos => translate pos offset)

/-- Region-level translation: both ends of the whole-genome region are
translated by the same offset and paired with the slice's contig name. -/
def translate_region (s e o : Int) : Region :=
  { contig := slice_contig, start := translate s o, stop := translate e o }

/-- `'chr1:{}-{}'.format(coord_sub[0], coord_sub[1])`: the region-query
string handed to the VCF reader.  The two indexing operations fail
(`IndexError`) when `coord_sub` has fewer than two entries, hence the
`Option`. -/
def region_subset (coord_wg : List Int) (offset : Int) : Option String :=
  match coord_sub coord_wg offset with
  | s :: e :: _ => some (slice_contig ++ ":" ++ toString s ++ "-" ++ toString e)
  | _ => none

/-- The loop guard `record.genotypes[0][0] == 1 and record.genotypes[0][1] == 1`.
`none` models the `IndexError` raised when the record has no sample. -/
def isHomAltFirst (r : VariantRecord) : Option Bool :=
  (r.genotypes.head?).map (fun g => g.a0 == 1 && g.a1 == 1)

/-- The scan loop, also counting how many records have been consumed from
the stream.  The result is `none` when the guard raises (a record without
samples), otherwise `some (outcome, consumed)` where `outcome` is the first
matching record (or `none` when the stream is exhausted without a match) and
`consumed` is the number of records taken off the stream before stopping. -/
def scanHom : List VariantRecord → Option (Option VariantRecord × Nat)
  | [] => some (none, 0)
  | r :: rest =>
    match isHomAltFirst r with
    | none => none
    | some true => some (some r, 1)
    | some false => (scanHom rest).map (fun p => (p.1, p.2 + 1))

/-- `find_first_homozygous_alt`: the record at which the loop `break`s, if
any.  The outer `Option` is the `IndexError` branch; the inner `Option` is
match / no match. -/
def find_first_homozygous_alt (l : List VariantRecord) : Option (Option VariantRecord) :=
  (scanHom l).map Prod.fst

/-- The number of records the loop consumed from the stream. -/
def scanConsumed (l : List VariantRecord) : Option Nat :=
  (scanHom l).map Prod.snd

/-- The value of the Python variable `var_pos` after the loop: it is
initialised to the string `''` and overwritten with the integer
`record.start` exactly when the scan finds a match, so afterwards it holds
either the empty string or an integer. -/
def var_pos (l : List VariantRecord) : Option (String ⊕ Int) :=
  (find_first_homozygous_alt l).map (fun o =>
    match o with
    | none => Sum.inl ""
    | some r => Sum.inr r.start)

/-- Python's `'{}'.format(x)` on the value held by `var_pos`: the string
itself, or the decimal rendering of the integer. -/
def pyStr : String ⊕ Int → String
  | Sum.inl s => s
  | Sum.inr i => toString i

/-- `region = 'GRCh38.chr1:{}-{}'.format(var_pos, var_pos)`: the second
region string, used for subgraph extraction. -/
def region (l : List VariantRecord) : Option String :=
  (var_pos l).map (fun v => "GRCh38.chr1:" ++ pyStr v ++ "-" ++ pyStr v)

/-- State-passing form of `translate` over an arbitrary ambient state: the
comprehension body reads nothing but its two arguments and writes nothing,
so the ambient state is returned untouched. -/
def translateSt {σ : Type} (p o : Int) (st : σ) : Int × σ :=
  (translate p o, st)

/-- C2: translate_region is exactly unchecked subtraction of the offset,
paired with the slice's contig name, and the single-coordinate translate
is exactly `p - o`. -/
theorem translate_region_is_offset_subtraction (s e o : Int) (ho : 0 ≤ o) :
    translate_region s e o = { contig := slice_contig, start := s - o, stop := e - o } ∧
    (∀ p : Int, translate p o = p - o) ∧
    coord_sub [s, e] o = [s - o, e - o] := by
  refine ⟨rfl, fun p => rfl, rfl⟩

/-- Witness for C2 at the notebook's concrete inputs. -/
theorem translate_region_is_offset_subtraction_witness :
    translate_region 25408683 25408869 25053647 =
      { contig := slice_contig, start := 25408683 - 25053647, stop := 25408869 - 25053647 } ∧
    (∀ p : Int, translate p 25053647 = p - 25053647) ∧
    coord_sub [25408683, 25408869] 25053647 = [25408683 - 25053647, 25408869 - 25053647] :=
  translate_region_is_offset_subtraction 25408683 25408869 25053647 (by decide)

/-- C5: translate_region is total: for all integer inputs, also when the
difference is negative, it returns the unchecked arithmetic result; there is
no bounds check and no error branch. -/
theorem translate_region_total (s e o : Int) :
    translate_region s e o = { contig := slice_contig, start := s - o, stop := e - o } := rfl

/-- C6: for a fixed offset, translate is injective and order-preserving. -/
theorem translate_injective_monotone (o : Int) :
    (∀ p1 p2 : Int, translate p1 o = translate p2 o → p1 = p2) ∧
    (∀ a b : Int, a ≤ b → translate a o ≤ translate b o) := by
  constructor
  · intro p1 p2 h
    have := congrArg (· + o) h
    simpa [translate] using this
  · intro a b hab
    simpa [translate] using Int.sub_le_sub_right hab o

/-- Witness for C6: injectivity and monotonicity applied at concrete points. -/
theorem translate_injective_monotone_witness :
    (7 : Int) = 7 ∧ translate 1 5 ≤ translate 2 5 :=
  ⟨(translate_injective_monotone 5).1 7 7 rfl,
   (translate_injective_monotone 5).2 1 2 (by decide)⟩

/-- C8: the coordinate transform is a pure, deterministic function of its
two arguments: it returns the same value on any two runs, depends on no
ambient state, and returns the ambient state unchanged. -/
theorem translate_pure {σ : Type} (p o : Int) (st st' : σ) :
    (translateSt p o st).1 = translate p o ∧
    (translateSt p o st).2 = st ∧
    (translateSt p o st).1 = (translateSt p o st').1 ∧
    translate p o = translate p o :=
  ⟨rfl, rfl, rfl, rfl⟩

/-- A non-matching record is skipped: the scan of `r :: rest` continues on
`rest`, the outcome is unchanged and one more record is counted. -/
theorem scanHom_cons_false {r : VariantRecord} (rest : List VariantRecord)
    (h : isHomAltFirst r = some false) :
    scanHom (r :: rest) = (scanHom rest).map (fun p => (p.1, p.2 + 1)) := by
  simp [scanHom, h]

/-- Skipping a non-matching record does not change the returned record. -/
theorem find_cons_false {r : VariantRecord} (rest : List VariantRecord)
    (h : isHomAltFirst r = some false) :
    find_first_homozygous_alt (r :: rest) = find_first_homozygous_alt rest := by
  simp [find_first_homozygous_alt, scanHom_cons_false rest h, Option.map_map]
  rfl

/-- When no record of the stream matches, the scan returns the absent
outcome and consumes the whole stream. -/
theorem scanHom_all_false (l : List VariantRecord)
    (h : ∀ r ∈ l, isHomAltFirst r = some false) :
    scanHom l = some (none, l.length) := by
  induction l with
  | nil => rfl
  | cons r rest ih =>
    have hr : isHomAltFirst r = some false := h r (List.mem_cons_self r rest)
    have hrest : ∀ x ∈ rest, isHomAltFirst x = some false :=
      fun x hx => h x (List.mem_cons_of_mem r hx)
    simp [scanHom_cons_false rest hr, ih hrest, List.length_cons]

/-- A record the scan returns satisfies the guard: its first sample's
genotype pair is `(1, 1)`. -/
theorem find_eq_some_homAlt (l : List VariantRecord) (r : VariantRecord)
    (h : find_first_homozygous_alt l = some (some r)) :
    isHomAltFirst r = some true := by
  induction l with
  | nil => simp [find_first_homozygous_alt, scanHom] at h
  | cons a rest ih =>
    by_cases ha : isHomAltFirst a = some true
    · have : find_first_homozygous_alt (a :: rest) = some (some a) := by
        simp [find_first_homozygous_alt, scanHom, ha]
      rw [this] at h
      obtain rfl : a = r := by simpa using h
      exact ha
    · match hg : isHomAltFirst a with
      | none =>
        simp [find_first_homozygous_alt, scanHom, hg] at h
      | some true => exact absurd hg ha
      | some false =>
        rw [find_cons_false rest hg] at h
        exact ih h

/-- The value of `var_pos` when the scan finds the record `r`. -/
theorem var_pos_of_found (l : List VariantRecord) (r : VariantRecord)
    (h : find_first_homozygous_alt l = some (some r)) :
    var_pos l = some (Sum.inr r.start) := by
  simp [var_pos, h]

/-- C1: the scan returns the first homozygous-alt record of the stream and
stops there: on a stream `[v1 (not hom-alt), v2 (hom-alt), v3 (hom-alt)]` it
returns `v2` having consumed exactly two records — the index of the first
match plus one — so `v3` is never consumed. -/
theorem scan_returns_first_match_short_circuit
    (l : List VariantRecord) (v1 v2 v3 : VariantRecord) (hl : l = [v1, v2, v3])
    (h1 : isHomAltFirst v1 = some false)
    (h2 : isHomAltFirst v2 = some true)
    (h3 : isHomAltFirst v3 = some true) :
    find_first_homozygous_alt l = some (some v2) ∧ scanConsumed l = some (1 + 1) := by
  subst hl
  refine ⟨?_, ?_⟩ <;>
    simp [find_first_homozygous_alt, scanConsumed, scanHom, h1, h2]

/-- Witness for C1 on a concrete three-record stream. -/
theorem scan_returns_first_match_short_circuit_witness :
    find_first_homozygous_alt
        [⟨"chr1", 355037, [⟨0, 1, false⟩]⟩, ⟨"chr1", 355040, [⟨1, 1, false⟩]⟩,
         ⟨"chr1", 355100, [⟨1, 1, false⟩]⟩] =
      some (some ⟨"chr1", 355040, [⟨1, 1, false⟩]⟩) ∧
    scanConsumed
        [⟨"chr1", 355037, [⟨0, 1, false⟩]⟩, ⟨"chr1", 355040, [⟨1, 1, false⟩]⟩,
         ⟨"chr1", 355100, [⟨1, 1, false⟩]⟩] = some (1 + 1) :=
  scan_returns_first_match_short_circuit _
    ⟨"chr1", 355037, [⟨0, 1, false⟩]⟩ ⟨"chr1", 355040, [⟨1, 1, false⟩]⟩
    ⟨"chr1", 355100, [⟨1, 1, false⟩]⟩ rfl (by decide) (by decide) (by decide)

/-- C4: when the stream (each record carrying a first-sample genotype, as
the source's `genotypes[0]` access presumes) contains no homozygous-alt
record, the scan returns the explicit absent outcome, not a record and not a
sentinel position. -/
theorem scan_no_match_returns_absent (l : List VariantRecord)
    (h : ∀ r ∈ l, isHomAltFirst r = some false) :
    find_first_homozygous_alt l = some none := by
  simp [find_first_homozygous_alt, scanHom_all_false l h]

/-- Witness for C4 on a concrete stream with no homozygous-alt record. -/
theorem scan_no_match_returns_absent_witness :
    find_first_homozygous_alt
        [⟨"chr1", 5, [⟨0, 1, false⟩]⟩, ⟨"chr1", 9, [⟨0, 0, true⟩]⟩] = some none :=
  scan_no_match_returns_absent _ (by decide)

/-- C9: the guard is equality with allele index 1 on both positions of the
first sample's genotype, nothing weaker: a record whose first-sample
genotype differs from `(1, 1)` in either position is skipped by the scan and
is never the returned record. -/
theorem scan_guard_is_exactly_one_one
    (l rest : List VariantRecord) (r : VariantRecord) (g : Genotype)
    (hg : r.genotypes.head? = some g) (hne : g.a0 ≠ 1 ∨ g.a1 ≠ 1) :
    find_first_homozygous_alt (r :: rest) = find_first_homozygous_alt rest ∧
    find_first_homozygous_alt l ≠ some (some r) := by
  have hr : isHomAltFirst r = some false := by
    have : (g.a0 == 1 && g.a1 == 1) = false := by
      rcases hne with h | h <;> simp [h]
    simp [isHomAltFirst, hg, this]
  refine ⟨find_cons_false rest hr, fun hfound => ?_⟩
  have := find_eq_some_homAlt l r hfound
  rw [hr] at this
  exact Bool.false_ne_true (Option.some.injEq _ _ ▸ this)

/-- Witness for C9: a heterozygous `(0, 1)` record is skipped and never
returned. -/
theorem scan_guard_is_exactly_one_one_witness :
    find_first_homozygous_alt
        [⟨"chr1", 5, [⟨0, 1, false⟩]⟩] = find_first_homozygous_alt [] ∧
    find_first_homozygous_alt [⟨"chr1", 5, [⟨0, 1, false⟩]⟩] ≠
      some (some ⟨"chr1", 5, [⟨0, 1, false⟩]⟩) :=
  scan_guard_is_exactly_one_one [⟨"chr1", 5, [⟨0, 1, false⟩]⟩] []
    ⟨"chr1", 5, [⟨0, 1, false⟩]⟩ ⟨0, 1, false⟩ rfl (by decide)

/-- C10: on the no-match path the code keeps the empty-string sentinel in
`var_pos` and formats it into the malformed subgraph-extraction region
string `"GRCh38.chr1:-"`, with no error raised. -/
theorem no_match_propagates_empty_sentinel (l : List VariantRecord)
    (h : ∀ r ∈ l, isHomAltFirst r = some false) :
    var_pos l = some (Sum.inl "") ∧ region l = some "GRCh38.chr1:-" := by
  have hfind : find_first_homozygous_alt l = some none := by
    simp [find_first_homozygous_alt, scanHom_all_false l h]
  constructor
  · simp [var_pos, hfind]
  · simp [region, var_pos, hfind]
    rfl

/-- Witness for C10 on a concrete stream with no homozygous-alt record. -/
theorem no_match_propagates_empty_sentinel_witness :
    var_pos [⟨"chr1", 5, [⟨0, 1, false⟩]⟩] = some (Sum.inl "") ∧
    region [⟨"chr1", 5, [⟨0, 1, false⟩]⟩] = some "GRCh38.chr1:-" :=
  no_match_propagates_empty_sentinel [⟨"chr1", 5, [⟨0, 1, false⟩]⟩] (by decide)

/-- The single record of the concrete end-to-end scenario: relative
position 355040, first-sample genotype `(1, 1)`. -/
def scenarioRecord : VariantRecord :=
  { contig := "chr1", start := 355040, genotypes := [⟨1, 1, false⟩] }

/-- C3: the concrete end-to-end scenario.  Translating `[25408683,
25408869]` by offset `25053647` yields the relative region
`[355036, 355222]` and its query string; on a one-record stream whose
record sits at relative position 355040 with genotype `(1, 1)` the locator
returns that record, and the second region string built from its position
is `"GRCh38.chr1:355040-355040"`. -/
theorem concrete_scenario_end_to_end :
    translate_region 25408683 25408869 25053647 =
      { contig := "chr1", start := 355036, stop := 355222 } ∧
    region_subset [25408683, 25408869] 25053647 = some "chr1:355036-355222" ∧
    find_first_homozygous_alt [scenarioRecord] = some (some scenarioRecord) ∧
    region [scenarioRecord] = some "GRCh38.chr1:355040-355040" := by
  refine ⟨by decide, ?_, by decide, ?_⟩ <;> rfl

/-- C7: every region-query string the core constructs from an integer pair
has the exact form `contig ++ ":" ++ toString start ++ "-" ++ toString end`:
the first query string is built from the translated pair, and the
subgraph-extraction string built after a match is formatted from the
matching record's position. -/
theorem region_strings_are_decimal_formatted
    (s e o : Int) (l : List VariantRecord) (r : VariantRecord)
    (hfind : find_first_homozygous_alt l = some (some r)) :
    region_subset [s, e] o =
      some ("chr1" ++ ":" ++ toString (s - o) ++ "-" ++ toString (e - o)) ∧
    region l =
      some ("GRCh38.chr1" ++ ":" ++ toString r.start ++ "-" ++ toString r.start) := by
  constructor
  · rfl
  · rw [region, var_pos_of_found l r hfind]
    rfl

/-- Witness for C7 at concrete coordinates and a concrete matching
stream. -/
theorem region_strings_are_decimal_formatted_witness :
    region_subset [10, 20] 3 =
      some ("chr1" ++ ":" ++ toString ((10 : Int) - 3) ++ "-" ++ toString ((20 : Int) - 3)) ∧
    region [⟨"chr1", 42, [⟨1, 1, true⟩]⟩] =
      some ("GRCh38.chr1" ++ ":" ++ toString (42 : Int) ++ "-" ++ toString (42 : Int)) :=
  region_strings_are_decimal_formatted 10 20 3
    [⟨"chr1", 42, [⟨1, 1, true⟩]⟩] ⟨"chr1", 42, [⟨1, 1, true⟩]⟩ (by decide)

end RHCE
